import Mathlib

/-!
Verification model of the MIDI tracker application, embedded from
`src/main.py`, `src/led_controller.py`, `src/database_manager.py` and
`src/energy_calculator.py`.

Conventions of the embedding:
* wall-clock times are rationals (seconds, as returned by the clock;
  the real clock is strictly positive);
* counters that Python stores as `int` or `float` are rationals, so
  that the delta subtractions of the persistence synchronizer are exact;
* Python dictionaries keyed by MIDI note or hour are either total
  functions with a default (for per-note maps) or association lists in
  insertion order (for the hourly buckets and the LED note states);
* the database layer is modelled as a list of issued write operations;
  a write always succeeds (the retry loop of `save_aggregated_data` is
  modelled by its successful exit);
* Python truthiness of floats is kept: a guard `if not x:` on an
  optional float is true when `x` is `None` or `0.0`.
-/

namespace MidiTracker

/-- The eight counters shared by `daily_stats`, each hourly bucket and
the `last_saved_daily_stats` snapshot in `src/main.py`. -/
structure StatsCounters where
  total_notes : ℚ
  total_duration_ms : ℚ
  total_velocity : ℚ
  total_energy : ℚ
  pedal_presses : ℚ
  note_bytes : ℚ
  other_bytes : ℚ
  session_time_seconds : ℚ
deriving DecidableEq, Repr

/-- The all-zero counter record (initial `daily_stats`, the default of
the hourly `defaultdict`, and the initial saved snapshot). -/
def zeroCounters : StatsCounters :=
  ⟨0, 0, 0, 0, 0, 0, 0, 0⟩

/-- Per-active-note record stored in `self.active_notes[note]`. -/
structure NoteState where
  start_time : ℚ
  velocity : ℕ
  energy : ℚ
deriving DecidableEq, Repr

/-- One `note_distribution` operation pushed onto `self.db_queue`
(date omitted: all modelled events fall on one day).  `note_id` is an
integer because the pedal and pitch-bend sentinels are `-1` and `-2`. -/
structure DistOp where
  note_id : ℤ
  count : ℕ
  velocity : ℕ
  energy : ℚ
  bytes : ℕ
  duration_ms : ℚ
deriving DecidableEq, Repr

/-- One hourly bucket: the counters plus the optional
`'session_start'` entry that `process_midi_message` adds lazily. -/
structure HourBucket where
  counters : StatsCounters
  session_start : Option ℚ
deriving DecidableEq, Repr

/-- Default hourly bucket produced by the `defaultdict` factory. -/
def defaultBucket : HourBucket := ⟨zeroCounters, none⟩

/-- Look an hour up in the bucket list, with `defaultdict` semantics. -/
def hourlyGet : List (ℕ × HourBucket) → ℕ → HourBucket
  | [], _ => defaultBucket
  | (k, b) :: rest, h => if k = h then b else hourlyGet rest h

/-- Update the bucket of hour `h`, creating it from the default when it
is absent (the `defaultdict` write path).  Insertion order is kept. -/
def hourlyUpdate (hs : List (ℕ × HourBucket)) (h : ℕ)
    (f : HourBucket → HourBucket) : List (ℕ × HourBucket) :=
  match hs with
  | [] => [(h, f defaultBucket)]
  | (k, b) :: rest =>
      if k = h then (k, f b) :: rest
      else (k, b) :: hourlyUpdate rest h f

/-- The mutable state of `MidiTrackerGUI` that the aggregation store,
session tracker and persistence synchronizer touch. -/
structure TrackerState where
  /-- `self.session_timer_start` -/
  session_timer_start : Option ℚ
  /-- `self.session_timer_total` -/
  session_timer_total : ℚ
  /-- `self.last_activity_time` -/
  last_activity_time : Option ℚ
  /-- `self.session_pause_threshold` (default 40) -/
  session_pause_threshold : ℚ
  /-- `self.session_is_active` -/
  session_is_active : Bool
  /-- `self.bytes_received` -/
  bytes_received : ℕ
  /-- `self.note_counts` -/
  note_counts : ℕ → ℕ
  /-- `self.per_note_bytes` -/
  per_note_bytes : ℕ → ℕ
  /-- `self.per_note_durations` -/
  per_note_durations : ℕ → ℚ
  /-- `self.per_note_energy` -/
  per_note_energy : ℕ → ℚ
  /-- `self.sustained_notes` -/
  sustained_notes : ℕ → Bool
  /-- `self.active_notes` -/
  active_notes : ℕ → Option NoteState
  /-- `self.pedal_pressed` -/
  pedal_pressed : Bool
  /-- `self.daily_stats` -/
  daily_stats : StatsCounters
  /-- `self.hourly_stats` as an association list in insertion order -/
  hourly_stats : List (ℕ × HourBucket)
  /-- `self.last_saved_daily_stats` (zeros before the first flush) -/
  last_saved_daily_stats : StatsCounters
  /-- `self.db_queue`, restricted to the `note_distribution` operations -/
  db_queue : List DistOp
  /-- `self.note_bytes` (session counter) -/
  note_bytes : ℕ
  /-- `self.other_bytes` (session counter) -/
  other_bytes : ℕ

/-- The freshly constructed tracker state (`MidiTrackerGUI.__init__`). -/
def initialState : TrackerState where
  session_timer_start := none
  session_timer_total := 0
  last_activity_time := none
  session_pause_threshold := 40
  session_is_active := false
  bytes_received := 0
  note_counts := fun _ => 0
  per_note_bytes := fun _ => 0
  per_note_durations := fun _ => 0
  per_note_energy := fun _ => 0
  sustained_notes := fun _ => false
  active_notes := fun _ => none
  pedal_pressed := false
  daily_stats := zeroCounters
  hourly_stats := []
  last_saved_daily_stats := zeroCounters
  db_queue := []
  note_bytes := 0
  other_bytes := 0

/-- `PianoEnergyCalculator.calculate_note_energy` from
`src/energy_calculator.py`: `0.574 * 0.01 * (1 + velocity / 127)`. -/
def calculateNoteEnergy (velocity : ℕ) : ℚ :=
  (574 / 1000) * (1 / 100) * (1 + (velocity : ℚ) / 127)

/-- Session-timing prefix of `process_midi_message`: record the
activity time and (re)start the session timer when idle. -/
def sessionTouch (now : ℚ) (s : TrackerState) : TrackerState :=
  let s := { s with last_activity_time := some now }
  if s.session_is_active then s
  else { s with session_timer_start := some now, session_is_active := true }

/-- The `'session_start'` initialisation for the current hour's bucket
(`if current_hour not in self.hourly_stats or 'session_start' not in
self.hourly_stats[current_hour]`). -/
def ensureHourStart (now : ℚ) (hour : ℕ) (s : TrackerState) : TrackerState :=
  if (hourlyGet s.hourly_stats hour).session_start = none then
    let hs := hourlyUpdate s.hourly_stats hour
      (fun b => { b with session_start := some now })
    { s with hourly_stats := hs }
  else s

/-- Classification body of `process_midi_message` for a message of at
least three bytes, returning the updated state and `is_note_event`. -/
def classifyLong (d0 d1 d2 : ℕ) (byte_count : ℕ) (now : ℚ) (hour : ℕ)
    (s : TrackerState) : TrackerState × Bool :=
  if 0x90 ≤ d0 ∧ d0 ≤ 0x9F ∧ 0 < d2 then
    -- Note on
    let e := calculateNoteEnergy d2
    let s := { s with
      note_counts := fun n => if n = d1 then s.note_counts n + 1 else s.note_counts n
      sustained_notes :=
        if s.pedal_pressed then
          fun n => n = d1 || s.sustained_notes n
        else s.sustained_notes
      per_note_energy := fun n =>
        if n = d1 then s.per_note_energy n + e else s.per_note_energy n
      per_note_bytes := fun n =>
        if n = d1 then s.per_note_bytes n + 3 else s.per_note_bytes n
      daily_stats := { s.daily_stats with
        total_notes := s.daily_stats.total_notes + 1
        total_velocity := s.daily_stats.total_velocity + d2
        total_energy := s.daily_stats.total_energy + e }
      hourly_stats := hourlyUpdate s.hourly_stats hour (fun b => { b with
        counters := { b.counters with
          total_notes := b.counters.total_notes + 1
          total_velocity := b.counters.total_velocity + d2
          total_energy := b.counters.total_energy + e } })
      active_notes := fun n =>
        if n = d1 then some ⟨now, d2, e⟩ else s.active_notes n
      db_queue := s.db_queue ++ [⟨(d1 : ℤ), 1, d2, e, 3, 0⟩] }
    (s, true)
  else if (0x80 ≤ d0 ∧ d0 ≤ 0x8F) ∨ (0x90 ≤ d0 ∧ d0 ≤ 0x9F ∧ d2 = 0) then
    -- Note off
    let s := { s with per_note_bytes := fun n =>
      if n = d1 then s.per_note_bytes n + 3 else s.per_note_bytes n }
    -- chord-tracking pedal check: with the pedal down the note is kept
    -- as sustained; with the pedal up it is removed from the active and
    -- sustained sets *before* the duration block below.
    let s :=
      if s.pedal_pressed then
        { s with sustained_notes := fun n => n = d1 || s.sustained_notes n }
      else
        { s with
          active_notes := fun n => if n = d1 then none else s.active_notes n
          sustained_notes := fun n => if n = d1 then false else s.sustained_notes n }
    let s :=
      match s.active_notes d1 with
      | some ns =>
          let dur := (now - ns.start_time) * 1000
          { s with
            per_note_durations := fun n =>
              if n = d1 then s.per_note_durations n + dur else s.per_note_durations n
            daily_stats := { s.daily_stats with
              total_duration_ms := s.daily_stats.total_duration_ms + dur }
            hourly_stats := hourlyUpdate s.hourly_stats hour (fun b => { b with
              counters := { b.counters with
                total_duration_ms := b.counters.total_duration_ms + dur } })
            db_queue := s.db_queue ++ [⟨(d1 : ℤ), 0, 0, 0, 3, dur⟩]
            active_notes := fun n => if n = d1 then none else s.active_notes n }
      | none => s
    (s, true)
  else if d0 &&& 0xF0 = 0xB0 then
    -- Control change
    if d1 = 64 then
      if 64 ≤ d2 ∧ s.pedal_pressed = false then
        ({ s with
            pedal_pressed := true
            daily_stats := { s.daily_stats with
              pedal_presses := s.daily_stats.pedal_presses + 1 }
            hourly_stats := hourlyUpdate s.hourly_stats hour (fun b => { b with
              counters := { b.counters with
                pedal_presses := b.counters.pedal_presses + 1 } })
            db_queue := s.db_queue ++ [⟨-1, 1, 0, 0, 3, 0⟩] }, false)
      else if d2 < 64 ∧ s.pedal_pressed = true then
        ({ s with
            pedal_pressed := false
            sustained_notes := fun n =>
              s.sustained_notes n && (s.active_notes n).isSome }, false)
      else (s, false)
    else (s, false)
  else
    -- Other status bytes: only pitch bend touches tracked state
    if (d0 &&& 0xF0) >>> 4 = 14 then
      ({ s with db_queue := s.db_queue ++ [⟨-2, 1, 0, 0, byte_count, 0⟩] }, false)
    else (s, false)

/-- Dispatch of `process_midi_message` on the message length. -/
def classifyMessage (midi_data : List ℕ) (now : ℚ) (hour : ℕ)
    (s : TrackerState) : TrackerState × Bool :=
  match midi_data with
  | d0 :: d1 :: d2 :: _ => classifyLong d0 d1 d2 midi_data.length now hour s
  | [d0, _] => (s, decide (0x80 ≤ d0 ∧ d0 ≤ 0x9F))
  | _ => (s, false)

/-- Final byte-category accounting of `process_midi_message`. -/
def applyByteCounters (byte_count : ℕ) (hour : ℕ) (is_note_event : Bool)
    (s : TrackerState) : TrackerState :=
  if is_note_event then
    { s with
      daily_stats := { s.daily_stats with
        note_bytes := s.daily_stats.note_bytes + byte_count }
      hourly_stats := hourlyUpdate s.hourly_stats hour (fun b => { b with
        counters := { b.counters with
          note_bytes := b.counters.note_bytes + byte_count } })
      note_bytes := s.note_bytes + byte_count }
  else
    { s with
      daily_stats := { s.daily_stats with
        other_bytes := s.daily_stats.other_bytes + byte_count }
      hourly_stats := hourlyUpdate s.hourly_stats hour (fun b => { b with
        counters := { b.counters with
          other_bytes := b.counters.other_bytes + byte_count } })
      other_bytes := s.other_bytes + byte_count }

/-- `MidiTrackerGUI.process_midi_message` from `src/main.py`,
restricted to the tracked aggregation, session and queue state
(GUI refresh, web pushes, debug strings and LED calls are outside this
state).  `hour` is `datetime.now().hour` at arrival. -/
def processMidiMessage (midi_data : List ℕ) (now : ℚ) (hour : ℕ)
    (s : TrackerState) : TrackerState :=
  let s := sessionTouch now s
  match midi_data with
  | [] => s
  | _ =>
    let byte_count := midi_data.length
    let s := { s with bytes_received := s.bytes_received + byte_count }
    let s := ensureHourStart now hour s
    let r := classifyMessage midi_data now hour s
    applyByteCounters byte_count hour r.2 r.1

/-- `MidiTrackerGUI.update_session_timer`.  Note the Python truthiness
guards: `if not self.last_activity_time` is taken when the value is
`None` *or* `0.0`, and likewise `if self.session_timer_start`. -/
def updateSessionTimer (now : ℚ) (s : TrackerState) : TrackerState :=
  match s.last_activity_time with
  | none => s
  | some la =>
    if la = 0 then s
    else if s.session_is_active ∧ s.session_pause_threshold < now - la then
      let total :=
        match s.session_timer_start with
        | some st => if st = 0 then s.session_timer_total
                     else s.session_timer_total + (la - st)
        | none => s.session_timer_total
      { s with
        session_timer_total := total
        session_is_active := false
        session_timer_start := none }
    else s

/-- `MidiTrackerGUI.get_current_session_time` (same truthiness note). -/
def getCurrentSessionTime (now : ℚ) (s : TrackerState) : ℚ :=
  if s.session_is_active then
    match s.session_timer_start with
    | some st => if st = 0 then s.session_timer_total
                 else s.session_timer_total + (now - st)
    | none => s.session_timer_total
  else s.session_timer_total

/-- One durable-storage write issued by `save_aggregated_data`: either
the additive daily upsert of a delta, or one full hourly-bucket upsert
handed to `DatabaseManager.update_database_stats`. -/
inductive DbWrite where
  | dailyUpsert (delta : StatsCounters)
  | hourlyUpsert (hour : ℕ) (counters : StatsCounters)
deriving DecidableEq, Repr

/-- The daily delta `save_aggregated_data` computes against
`last_saved_daily_stats`; the session field is measured against
`get_current_session_time()` at flush time. -/
def dailyDelta (now : ℚ) (s : TrackerState) : StatsCounters where
  total_notes := s.daily_stats.total_notes - s.last_saved_daily_stats.total_notes
  total_duration_ms :=
    s.daily_stats.total_duration_ms - s.last_saved_daily_stats.total_duration_ms
  total_velocity :=
    s.daily_stats.total_velocity - s.last_saved_daily_stats.total_velocity
  total_energy := s.daily_stats.total_energy - s.last_saved_daily_stats.total_energy
  pedal_presses := s.daily_stats.pedal_presses - s.last_saved_daily_stats.pedal_presses
  note_bytes := s.daily_stats.note_bytes - s.last_saved_daily_stats.note_bytes
  other_bytes := s.daily_stats.other_bytes - s.last_saved_daily_stats.other_bytes
  session_time_seconds :=
    getCurrentSessionTime now s - s.last_saved_daily_stats.session_time_seconds

/-- The per-bucket session-time fold performed just before an hourly
bucket is enqueued: when the bucket has a `'session_start'`, fold
`now - session_start` into its `session_time_seconds`. -/
def foldBucket (now : ℚ) (b : HourBucket) : StatsCounters :=
  match b.session_start with
  | some ss => { b.counters with
      session_time_seconds := b.counters.session_time_seconds + (now - ss) }
  | none => b.counters

/-- The list of hourly upserts enqueued by one flush: exactly the
buckets whose `total_notes` is positive, in insertion order. -/
def hourlyFlushWrites (now : ℚ) (hs : List (ℕ × HourBucket)) : List DbWrite :=
  hs.filterMap fun p =>
    if 0 < p.2.counters.total_notes then
      some (DbWrite.hourlyUpsert p.1 (foldBucket now p.2))
    else none

/-- `MidiTrackerGUI.save_aggregated_data` from `src/main.py`: computes
the daily delta, issues the gated additive daily upsert (the retry loop
is modelled as succeeding, after which the snapshot is advanced),
enqueues one full upsert per hourly bucket with notes, and clears the
hourly map unconditionally.  Returns the new state and the writes. -/
def saveAggregatedData (now : ℚ) (s : TrackerState) :
    TrackerState × List DbWrite :=
  let cst := getCurrentSessionTime now s
  let delta := dailyDelta now s
  let dailyPart : TrackerState × List DbWrite :=
    if 0 < delta.total_notes ∨ 0 < delta.session_time_seconds then
      ({ s with last_saved_daily_stats :=
          { s.daily_stats with session_time_seconds := cst } },
        [DbWrite.dailyUpsert delta])
    else (s, [])
  let s := dailyPart.1
  let writes := dailyPart.2 ++ hourlyFlushWrites now s.hourly_stats
  ({ s with hourly_stats := [] }, writes)

/-!  ## Light Feedback Engine (`src/led_controller.py`)  -/

/-- Result of `LEDController.midi_note_to_led`: a single LED index or
the pair used in double-LED mode.  Indices are integers, matching the
Python arithmetic. -/
inductive LedTarget where
  | one (i : ℤ)
  | two (i j : ℤ)
deriving DecidableEq, Repr

/-- `LEDController.midi_note_to_led`.  `LED_COUNT = 144`,
`PIANO_LOWEST_NOTE = 21`, `PIANO_HIGHEST_NOTE = 108`,
`double_led_start_note = 29`, `double_led_end_note = 100`. -/
def midiNoteToLed (double_led_mode : Bool) (midi_note : ℕ) : Option LedTarget :=
  if double_led_mode then
    if midi_note < 29 ∨ 100 < midi_note then none
    else
      let offset : ℤ := (midi_note : ℤ) - 29
      let led_index1 : ℤ := 144 - 1 - offset * 2
      some (.two led_index1 (led_index1 - 1))
  else
    if midi_note < 21 ∨ 108 < midi_note then none
    else some (.one (144 - 1 - ((midi_note : ℤ) - 21)))

/-- The set of LED channels a note drives, as a list. -/
def ledChannels (double_led_mode : Bool) (midi_note : ℕ) : List ℤ :=
  match midiNoteToLed double_led_mode midi_note with
  | none => []
  | some (.one i) => [i]
  | some (.two i j) => [i, j]

/-- An RGB pixel value (each component a natural, Python int). -/
abbrev RGB := ℕ × ℕ × ℕ

/-- `int(c * brightness)` on a nonnegative channel component. -/
def scaleColor (c : ℕ) (brightness : ℚ) : ℕ :=
  (⌊(c : ℚ) * brightness⌋).toNat

/-- Scale a full RGB colour by a brightness factor. -/
def scaleRGB (c : RGB) (brightness : ℚ) : RGB :=
  (scaleColor c.1 brightness, scaleColor c.2.1 brightness, scaleColor c.2.2 brightness)

/-- Write one colour to the channel(s) of a target. -/
def setPixels (t : LedTarget) (c : RGB) (px : ℤ → RGB) : ℤ → RGB :=
  match t with
  | .one i => fun k => if k = i then c else px k
  | .two i j => fun k => if k = i ∨ k = j then c else px k

/-- Per-note effect record stored in `self.note_states[midi_note]`. -/
structure NoteFx where
  velocity : ℕ
  pressed_time : ℚ
  released_time : Option ℚ
  brightness : ℚ
deriving DecidableEq, Repr

/-- Insert or replace a key in an association list (dict semantics,
insertion order kept). -/
def fxInsert (k : ℕ) (v : NoteFx) : List (ℕ × NoteFx) → List (ℕ × NoteFx)
  | [] => [(k, v)]
  | (k', v') :: rest =>
      if k' = k then (k', v) :: rest else (k', v') :: fxInsert k v rest

/-- Remove a key from an association list. -/
def fxErase (k : ℕ) (l : List (ℕ × NoteFx)) : List (ℕ × NoteFx) :=
  l.filter fun p => p.1 ≠ k

/-- Set the `released_time` of a key, when present. -/
def fxRelease (k : ℕ) (t : ℚ) (l : List (ℕ × NoteFx)) : List (ℕ × NoteFx) :=
  l.map fun p => if p.1 = k then (p.1, { p.2 with released_time := some t }) else p

/-- The `LEDController` state the note events and the fade animation
touch.  The hardware strip is modelled by the `pixels` framebuffer and
is assumed present (with no strip every handler returns unchanged). -/
structure LedState where
  enabled : Bool
  double_led_mode : Bool
  note_color : Option RGB
  background_color : Option RGB
  sustain_pedal_hold : Bool
  sustain_pedal_active : Bool
  effect_mode : String
  velocity_brightness : Bool
  fade_duration_ms : ℚ
  sustain_fade_threshold : ℚ
  animation_running : Bool
  active_notes : ℕ → Bool
  note_states : List (ℕ × NoteFx)
  pixels : ℤ → RGB

/-- The velocity-scaled brightness `0.3 + (velocity / 127.0) * 0.7`. -/
def velocityFactor (velocity : ℕ) : ℚ :=
  3 / 10 + ((velocity : ℚ) / 127) * (7 / 10)

/-- `LEDController.note_on`. -/
def ledNoteOn (midi_note velocity : ℕ) (now : ℚ) (s : LedState) : LedState :=
  if s.enabled = false then s
  else match midiNoteToLed s.double_led_mode midi_note with
  | none => s
  | some tgt =>
    let ns := fxInsert midi_note ⟨velocity, now, none, 1⟩ s.note_states
    let s := { s with note_states := ns }
    let brightness_factor : ℚ :=
      if s.velocity_brightness then velocityFactor velocity else 1
    let s := { s with active_notes := fun n => n = midi_note || s.active_notes n }
    match s.note_color with
    | some c => { s with pixels := setPixels tgt (scaleRGB c brightness_factor) s.pixels }
    | none => s

/-- `LEDController.note_off`.  Note the early return while
`sustain_pedal_hold` is enabled and the pedal is active: it happens
*before* `released_time` is recorded. -/
def ledNoteOff (midi_note : ℕ) (now : ℚ) (s : LedState) : LedState :=
  if s.enabled = false then s
  else if s.sustain_pedal_hold && s.sustain_pedal_active then s
  else match midiNoteToLed s.double_led_mode midi_note with
  | none => s
  | some tgt =>
    let s := { s with note_states := fxRelease midi_note now s.note_states }
    if s.effect_mode = "fade" && s.animation_running then
      { s with active_notes := fun n => decide (n ≠ midi_note) && s.active_notes n }
    else
      let s := { s with
        active_notes := fun n => decide (n ≠ midi_note) && s.active_notes n
        note_states := fxErase midi_note s.note_states }
      let bg := match s.background_color with
        | some c => c
        | none => (0, 0, 0)
      { s with pixels := setPixels tgt bg s.pixels }

/-- One iteration of the `_update_fade_effect` loop body, acting on the
accumulated framebuffer and removal list. -/
def fadeStep (now : ℚ) (s : LedState) (acc : (ℤ → RGB) × List ℕ)
    (p : ℕ × NoteFx) : (ℤ → RGB) × List ℕ :=
  match midiNoteToLed s.double_led_mode p.1 with
  | none => (acc.1, acc.2 ++ [p.1])
  | some tgt =>
    match p.2.released_time with
    | none => acc
    | some rt =>
      let elapsed_ms := (now - rt) * 1000
      let fade_progress := min 1 (elapsed_ms / s.fade_duration_ms)
      let target_brightness : ℚ :=
        if s.sustain_pedal_hold && s.sustain_pedal_active then
          s.sustain_fade_threshold
        else 0
      let start_brightness : ℚ :=
        if s.velocity_brightness then velocityFactor p.2.velocity else 1
      let current_brightness :=
        start_brightness - (start_brightness - target_brightness) * fade_progress
      if current_brightness ≤ 1 / 100 ∨ (1 ≤ fade_progress ∧ target_brightness = 0) then
        let bg := match s.background_color with
          | some c => c
          | none => (0, 0, 0)
        (setPixels tgt bg acc.1, acc.2 ++ [p.1])
      else if 1 ≤ fade_progress ∧ 0 < target_brightness then
        match s.note_color with
        | some c => (setPixels tgt (scaleRGB c target_brightness) acc.1, acc.2)
        | none => acc
      else
        match s.note_color with
        | some c => (setPixels tgt (scaleRGB c current_brightness) acc.1, acc.2)
        | none => acc

/-- `LEDController._update_fade_effect`: walk the note states in
insertion order, repaint released notes, and drop completed fades. -/
def ledUpdateFade (now : ℚ) (s : LedState) : LedState :=
  let r := s.note_states.foldl (fadeStep now s) (s.pixels, [])
  { s with
    pixels := r.1
    note_states := s.note_states.filter fun p => p.1 ∉ r.2 }

/-!  ## Basic lemmas about the embedded operations  -/

theorem hourlyGet_update_self (hs : List (ℕ × HourBucket)) (h : ℕ)
    (f : HourBucket → HourBucket) :
    hourlyGet (hourlyUpdate hs h f) h = f (hourlyGet hs h) := by
  induction hs with
  | nil => simp [hourlyUpdate, hourlyGet]
  | cons p rest ih =>
      obtain ⟨k, b⟩ := p
      by_cases hk : k = h <;> simp [hourlyUpdate, hourlyGet, hk, ih]

theorem hourlyGet_update_ne (hs : List (ℕ × HourBucket)) (h k : ℕ)
    (f : HourBucket → HourBucket) (hne : k ≠ h) :
    hourlyGet (hourlyUpdate hs h f) k = hourlyGet hs k := by
  induction hs with
  | nil => simp [hourlyUpdate, hourlyGet, Ne.symm hne]
  | cons p rest ih =>
      obtain ⟨k', b⟩ := p
      simp only [hourlyUpdate]
      by_cases hk : k' = h
      · subst hk
        simp [hourlyGet, Ne.symm hne]
      · simp [hourlyGet, hk, ih]

@[simp] theorem sessionTouch_daily (now : ℚ) (s : TrackerState) :
    (sessionTouch now s).daily_stats = s.daily_stats := by
  simp only [sessionTouch]; split <;> rfl

@[simp] theorem sessionTouch_hourly (now : ℚ) (s : TrackerState) :
    (sessionTouch now s).hourly_stats = s.hourly_stats := by
  simp only [sessionTouch]; split <;> rfl

@[simp] theorem sessionTouch_queue (now : ℚ) (s : TrackerState) :
    (sessionTouch now s).db_queue = s.db_queue := by
  simp only [sessionTouch]; split <;> rfl

@[simp] theorem sessionTouch_active_notes (now : ℚ) (s : TrackerState) :
    (sessionTouch now s).active_notes = s.active_notes := by
  simp only [sessionTouch]; split <;> rfl

@[simp] theorem sessionTouch_sustained (now : ℚ) (s : TrackerState) :
    (sessionTouch now s).sustained_notes = s.sustained_notes := by
  simp only [sessionTouch]; split <;> rfl

@[simp] theorem sessionTouch_pedal (now : ℚ) (s : TrackerState) :
    (sessionTouch now s).pedal_pressed = s.pedal_pressed := by
  simp only [sessionTouch]; split <;> rfl

@[simp] theorem sessionTouch_durations (now : ℚ) (s : TrackerState) :
    (sessionTouch now s).per_note_durations = s.per_note_durations := by
  simp only [sessionTouch]; split <;> rfl

@[simp] theorem sessionTouch_note_bytes (now : ℚ) (s : TrackerState) :
    (sessionTouch now s).note_bytes = s.note_bytes := by
  simp only [sessionTouch]; split <;> rfl

@[simp] theorem sessionTouch_other_bytes (now : ℚ) (s : TrackerState) :
    (sessionTouch now s).other_bytes = s.other_bytes := by
  simp only [sessionTouch]; split <;> rfl

@[simp] theorem sessionTouch_last_activity (now : ℚ) (s : TrackerState) :
    (sessionTouch now s).last_activity_time = some now := by
  simp only [sessionTouch]; split <;> rfl

@[simp] theorem sessionTouch_is_active (now : ℚ) (s : TrackerState) :
    (sessionTouch now s).session_is_active = true := by
  simp only [sessionTouch]; split
  · assumption
  · rfl

@[simp] theorem sessionTouch_total (now : ℚ) (s : TrackerState) :
    (sessionTouch now s).session_timer_total = s.session_timer_total := by
  simp only [sessionTouch]; split <;> rfl

@[simp] theorem sessionTouch_threshold (now : ℚ) (s : TrackerState) :
    (sessionTouch now s).session_pause_threshold = s.session_pause_threshold := by
  simp only [sessionTouch]; split <;> rfl

theorem sessionTouch_start_of_idle (now : ℚ) (s : TrackerState)
    (h : s.session_is_active = false) :
    (sessionTouch now s).session_timer_start = some now := by
  simp only [sessionTouch]; split
  · simp_all
  · rfl

@[simp] theorem ensureHourStart_daily (now : ℚ) (hour : ℕ) (s : TrackerState) :
    (ensureHourStart now hour s).daily_stats = s.daily_stats := by
  simp only [ensureHourStart]; split <;> rfl

@[simp] theorem ensureHourStart_queue (now : ℚ) (hour : ℕ) (s : TrackerState) :
    (ensureHourStart now hour s).db_queue = s.db_queue := by
  simp only [ensureHourStart]; split <;> rfl

@[simp] theorem ensureHourStart_active_notes (now : ℚ) (hour : ℕ) (s : TrackerState) :
    (ensureHourStart now hour s).active_notes = s.active_notes := by
  simp only [ensureHourStart]; split <;> rfl

@[simp] theorem ensureHourStart_sustained (now : ℚ) (hour : ℕ) (s : TrackerState) :
    (ensureHourStart now hour s).sustained_notes = s.sustained_notes := by
  simp only [ensureHourStart]; split <;> rfl

@[simp] theorem ensureHourStart_pedal (now : ℚ) (hour : ℕ) (s : TrackerState) :
    (ensureHourStart now hour s).pedal_pressed = s.pedal_pressed := by
  simp only [ensureHourStart]; split <;> rfl

@[simp] theorem ensureHourStart_durations (now : ℚ) (hour : ℕ) (s : TrackerState) :
    (ensureHourStart now hour s).per_note_durations = s.per_note_durations := by
  simp only [ensureHourStart]; split <;> rfl

@[simp] theorem ensureHourStart_note_bytes (now : ℚ) (hour : ℕ) (s : TrackerState) :
    (ensureHourStart now hour s).note_bytes = s.note_bytes := by
  simp only [ensureHourStart]; split <;> rfl

@[simp] theorem ensureHourStart_other_bytes (now : ℚ) (hour : ℕ) (s : TrackerState) :
    (ensureHourStart now hour s).other_bytes = s.other_bytes := by
  simp only [ensureHourStart]; split <;> rfl

@[simp] theorem ensureHourStart_last_activity (now : ℚ) (hour : ℕ) (s : TrackerState) :
    (ensureHourStart now hour s).last_activity_time = s.last_activity_time := by
  simp only [ensureHourStart]; split <;> rfl

@[simp] theorem ensureHourStart_is_active (now : ℚ) (hour : ℕ) (s : TrackerState) :
    (ensureHourStart now hour s).session_is_active = s.session_is_active := by
  simp only [ensureHourStart]; split <;> rfl

@[simp] theorem ensureHourStart_total (now : ℚ) (hour : ℕ) (s : TrackerState) :
    (ensureHourStart now hour s).session_timer_total = s.session_timer_total := by
  simp only [ensureHourStart]; split <;> rfl

@[simp] theorem ensureHourStart_threshold (now : ℚ) (hour : ℕ) (s : TrackerState) :
    (ensureHourStart now hour s).session_pause_threshold = s.session_pause_threshold := by
  simp only [ensureHourStart]; split <;> rfl

@[simp] theorem ensureHourStart_start (now : ℚ) (hour : ℕ) (s : TrackerState) :
    (ensureHourStart now hour s).session_timer_start = s.session_timer_start := by
  simp only [ensureHourStart]; split <;> rfl

theorem ensureHourStart_counters (now : ℚ) (hour k : ℕ) (s : TrackerState) :
    (hourlyGet (ensureHourStart now hour s).hourly_stats k).counters =
      (hourlyGet s.hourly_stats k).counters := by
  simp only [ensureHourStart]; split
  · by_cases hk : k = hour
    · subst hk; rw [hourlyGet_update_self]
    · rw [hourlyGet_update_ne _ _ _ _ hk]
  · rfl

@[simp] theorem applyByteCounters_active_notes (bc hour : ℕ) (b : Bool) (s : TrackerState) :
    (applyByteCounters bc hour b s).active_notes = s.active_notes := by
  simp only [applyByteCounters]; split <;> rfl

@[simp] theorem applyByteCounters_sustained (bc hour : ℕ) (b : Bool) (s : TrackerState) :
    (applyByteCounters bc hour b s).sustained_notes = s.sustained_notes := by
  simp only [applyByteCounters]; split <;> rfl

@[simp] theorem applyByteCounters_pedal (bc hour : ℕ) (b : Bool) (s : TrackerState) :
    (applyByteCounters bc hour b s).pedal_pressed = s.pedal_pressed := by
  simp only [applyByteCounters]; split <;> rfl

@[simp] theorem applyByteCounters_durations (bc hour : ℕ) (b : Bool) (s : TrackerState) :
    (applyByteCounters bc hour b s).per_note_durations = s.per_note_durations := by
  simp only [applyByteCounters]; split <;> rfl

@[simp] theorem applyByteCounters_queue (bc hour : ℕ) (b : Bool) (s : TrackerState) :
    (applyByteCounters bc hour b s).db_queue = s.db_queue := by
  simp only [applyByteCounters]; split <;> rfl

@[simp] theorem applyByteCounters_daily_pedal (bc hour : ℕ) (b : Bool) (s : TrackerState) :
    (applyByteCounters bc hour b s).daily_stats.pedal_presses =
      s.daily_stats.pedal_presses := by
  simp only [applyByteCounters]; split <;> rfl

@[simp] theorem applyByteCounters_daily_duration (bc hour : ℕ) (b : Bool) (s : TrackerState) :
    (applyByteCounters bc hour b s).daily_stats.total_duration_ms =
      s.daily_stats.total_duration_ms := by
  simp only [applyByteCounters]; split <;> rfl

@[simp] theorem applyByteCounters_daily_notes (bc hour : ℕ) (b : Bool) (s : TrackerState) :
    (applyByteCounters bc hour b s).daily_stats.total_notes =
      s.daily_stats.total_notes := by
  simp only [applyByteCounters]; split <;> rfl

@[simp] theorem applyByteCounters_last_activity (bc hour : ℕ) (b : Bool) (s : TrackerState) :
    (applyByteCounters bc hour b s).last_activity_time = s.last_activity_time := by
  simp only [applyByteCounters]; split <;> rfl

@[simp] theorem applyByteCounters_is_active (bc hour : ℕ) (b : Bool) (s : TrackerState) :
    (applyByteCounters bc hour b s).session_is_active = s.session_is_active := by
  simp only [applyByteCounters]; split <;> rfl

@[simp] theorem applyByteCounters_total (bc hour : ℕ) (b : Bool) (s : TrackerState) :
    (applyByteCounters bc hour b s).session_timer_total = s.session_timer_total := by
  simp only [applyByteCounters]; split <;> rfl

@[simp] theorem applyByteCounters_threshold (bc hour : ℕ) (b : Bool) (s : TrackerState) :
    (applyByteCounters bc hour b s).session_pause_threshold =
      s.session_pause_threshold := by
  simp only [applyByteCounters]; split <;> rfl

@[simp] theorem applyByteCounters_start (bc hour : ℕ) (b : Bool) (s : TrackerState) :
    (applyByteCounters bc hour b s).session_timer_start = s.session_timer_start := by
  simp only [applyByteCounters]; split <;> rfl

@[simp] theorem applyByteCounters_true_daily_note (bc hour : ℕ) (s : TrackerState) :
    (applyByteCounters bc hour true s).daily_stats.note_bytes =
      s.daily_stats.note_bytes + bc := rfl

@[simp] theorem applyByteCounters_true_daily_other (bc hour : ℕ) (s : TrackerState) :
    (applyByteCounters bc hour true s).daily_stats.other_bytes =
      s.daily_stats.other_bytes := rfl

@[simp] theorem applyByteCounters_true_session_note (bc hour : ℕ) (s : TrackerState) :
    (applyByteCounters bc hour true s).note_bytes = s.note_bytes + bc := rfl

@[simp] theorem applyByteCounters_true_session_other (bc hour : ℕ) (s : TrackerState) :
    (applyByteCounters bc hour true s).other_bytes = s.other_bytes := rfl

theorem applyByteCounters_true_hourly_note (bc hour : ℕ) (s : TrackerState) :
    (hourlyGet (applyByteCounters bc hour true s).hourly_stats hour).counters.note_bytes =
      (hourlyGet s.hourly_stats hour).counters.note_bytes + bc := by
  simp [applyByteCounters, hourlyGet_update_self]

theorem applyByteCounters_true_hourly_other (bc hour : ℕ) (s : TrackerState) :
    (hourlyGet (applyByteCounters bc hour true s).hourly_stats hour).counters.other_bytes =
      (hourlyGet s.hourly_stats hour).counters.other_bytes := by
  simp [applyByteCounters, hourlyGet_update_self]

@[simp] theorem applyByteCounters_false_daily_other (bc hour : ℕ) (s : TrackerState) :
    (applyByteCounters bc hour false s).daily_stats.other_bytes =
      s.daily_stats.other_bytes + bc := rfl

@[simp] theorem applyByteCounters_false_daily_note (bc hour : ℕ) (s : TrackerState) :
    (applyByteCounters bc hour false s).daily_stats.note_bytes =
      s.daily_stats.note_bytes := rfl

@[simp] theorem applyByteCounters_false_session_other (bc hour : ℕ) (s : TrackerState) :
    (applyByteCounters bc hour false s).other_bytes = s.other_bytes + bc := rfl

@[simp] theorem applyByteCounters_false_session_note (bc hour : ℕ) (s : TrackerState) :
    (applyByteCounters bc hour false s).note_bytes = s.note_bytes := rfl

theorem applyByteCounters_false_hourly_other (bc hour : ℕ) (s : TrackerState) :
    (hourlyGet (applyByteCounters bc hour false s).hourly_stats hour).counters.other_bytes =
      (hourlyGet s.hourly_stats hour).counters.other_bytes + bc := by
  simp [applyByteCounters, hourlyGet_update_self]

/-!  ## Claim C8: Direct (single-LED) mapping  -/

/-- C8: in Direct (single-LED) mapping mode, note 21 maps to the
highest channel index 143 and note 108 to the lowest valid index 56;
every note outside `[21, 108]` (in particular 20 and 109) is unmapped,
and the channel index strictly decreases as the note increases. -/
theorem direct_mapping_spec :
    midiNoteToLed false 21 = some (.one 143) ∧
    midiNoteToLed false 108 = some (.one 56) ∧
    midiNoteToLed false 20 = none ∧
    midiNoteToLed false 109 = none ∧
    (∀ n : ℕ, n < 21 ∨ 108 < n → midiNoteToLed false n = none) ∧
    (∀ m n : ℕ, ∀ i j : ℤ, midiNoteToLed false m = some (.one i) →
      midiNoteToLed false n = some (.one j) → m < n → j < i) := by
  refine ⟨by decide, by decide, by decide, by decide, ?_, ?_⟩
  · intro n hn
    simp only [midiNoteToLed, Bool.false_eq_true, if_false]
    rw [if_pos hn]
  · intro m n i j hm hn hmn
    by_cases h1 : m < 21 ∨ 108 < m
    · simp [midiNoteToLed, h1] at hm
    by_cases h2 : n < 21 ∨ 108 < n
    · simp [midiNoteToLed, h2] at hn
    simp [midiNoteToLed, h1, h2] at hm hn
    omega

/-- Witness for C8 at concrete inputs. -/
theorem direct_mapping_spec_witness :
    midiNoteToLed false 110 = none ∧ (56 : ℤ) < 143 :=
  ⟨direct_mapping_spec.2.2.2.2.1 110 (by norm_num),
   direct_mapping_spec.2.2.2.2.2 21 108 143 56 (by decide) (by decide) (by norm_num)⟩

/-!  ## Claim C9: Paired (double-LED) mapping  -/

/-- C9: in Paired (double-LED) mapping mode, boundary notes 29 and 100
are mapped, each to two adjacent channel indices computed from
`offset * 2`; every note outside `[29, 100]` (in particular 28 and 101)
is unmapped. -/
theorem paired_mapping_spec :
    midiNoteToLed true 29 = some (.two 143 142) ∧
    midiNoteToLed true 100 = some (.two 1 0) ∧
    midiNoteToLed true 28 = none ∧
    midiNoteToLed true 101 = none ∧
    (∀ n : ℕ, n < 29 ∨ 100 < n → midiNoteToLed true n = none) ∧
    (∀ n : ℕ, ∀ i j : ℤ, midiNoteToLed true n = some (.two i j) →
      i = 143 - ((n : ℤ) - 29) * 2 ∧ j = i - 1) := by
  refine ⟨by decide, by decide, by decide, by decide, ?_, ?_⟩
  · intro n hn
    simp only [midiNoteToLed, if_true]
    rw [if_pos hn]
  · intro n i j hn
    by_cases h1 : n < 29 ∨ 100 < n
    · simp [midiNoteToLed, h1] at hn
    simp [midiNoteToLed, h1] at hn
    omega

/-- Witness for C9 at concrete inputs. -/
theorem paired_mapping_spec_witness :
    midiNoteToLed true 102 = none ∧
    ((143 : ℤ) = 143 - ((29 : ℕ) - 29 : ℤ) * 2 ∧ (142 : ℤ) = 143 - 1) := by
  refine ⟨paired_mapping_spec.2.2.2.2.1 102 (by norm_num), ?_⟩
  have h := paired_mapping_spec.2.2.2.2.2 29 143 142 (by decide)
  exact ⟨h.1, by omega⟩

/-!  ## Claim C10: the note-to-channel mapping never aliases  -/

/-- C10: within each mapping mode, distinct mapped notes drive disjoint
channel sets — any channel written for note `m` and also for note `n`
forces `m = n`. -/
theorem mapping_channels_disjoint (mode : Bool) (m n : ℕ) (c : ℤ)
    (hm : c ∈ ledChannels mode m) (hn : c ∈ ledChannels mode n) : m = n := by
  cases mode
  · by_cases h1 : m < 21 ∨ 108 < m
    · simp [ledChannels, midiNoteToLed, h1] at hm
    by_cases h2 : n < 21 ∨ 108 < n
    · simp [ledChannels, midiNoteToLed, h2] at hn
    simp [ledChannels, midiNoteToLed, h1, h2] at hm hn
    omega
  · by_cases h1 : m < 29 ∨ 100 < m
    · simp [ledChannels, midiNoteToLed, h1] at hm
    by_cases h2 : n < 29 ∨ 100 < n
    · simp [ledChannels, midiNoteToLed, h2] at hn
    simp [ledChannels, midiNoteToLed, h1, h2] at hm hn
    rcases hm with hm | hm <;> rcases hn with hn | hn <;> omega

/-- Witness for C10: channel 104 is driven by note 60 in Direct mode,
and the theorem then forces the two notes to coincide. -/
theorem mapping_channels_disjoint_witness : 60 = 60 :=
  mapping_channels_disjoint false 60 60 104 (by decide) (by decide)

/-!  ## Claim C4: Fade effect under sustain-hold  -/

/-- The C4 scenario configuration: Fade mode, sustain-hold enabled,
pedal currently held, `fade_duration = 1000 ms`,
`sustain_fade_threshold = 0.3`, note colour (0, 0, 255), animation
running, hardware present. -/
def fadeScenarioConfig : LedState where
  enabled := true
  double_led_mode := false
  note_color := some (0, 0, 255)
  background_color := none
  sustain_pedal_hold := true
  sustain_pedal_active := true
  effect_mode := "fade"
  velocity_brightness := false
  fade_duration_ms := 1000
  sustain_fade_threshold := 3 / 10
  animation_running := true
  active_notes := fun _ => false
  note_states := []
  pixels := fun _ => (0, 0, 0)

/-- Note 60 pressed at t = 0 s. -/
def fadeScenarioPressed : LedState := ledNoteOn 60 100 0 fadeScenarioConfig

/-- Note 60 released at t = 1 s while the pedal stays down. -/
def fadeScenarioReleased : LedState := ledNoteOff 60 1 fadeScenarioPressed

/-- Scaling the note colour by brightness 1 is the identity. -/
theorem scaleRGB_one_eval : scaleRGB (0, 0, 255) 1 = (0, 0, 255) := by
  unfold scaleRGB scaleColor
  norm_num
  rfl

/-- `int(255 * 0.3) = 76`. -/
theorem scaleColor_threshold_eval : scaleColor 255 (3 / 10) = 76 := by
  unfold scaleColor
  norm_num
  rfl

/-- C4 counterexample: in the scenario, a fade tick 1.5 s after the
release (well past the 1000 ms fade duration, pedal still down) leaves
note 60's channel (LED 104) at the full note colour (0, 0, 255); it
does not equal `0.3 ×` the note colour, contrary to the claim. -/
theorem fade_sustain_counterexample :
    fadeScenarioReleased.pixels 104 = (0, 0, 255) ∧
    (ledUpdateFade (5 / 2) fadeScenarioReleased).pixels 104 = (0, 0, 255) ∧
    (ledUpdateFade (5 / 2) fadeScenarioReleased).pixels 104 ≠
      (0, 0, scaleColor 255 (3 / 10)) := by
  have h1 : fadeScenarioReleased.pixels 104 = scaleRGB (0, 0, 255) 1 := rfl
  have h2 : (ledUpdateFade (5 / 2) fadeScenarioReleased).pixels 104 =
      scaleRGB (0, 0, 255) 1 := rfl
  refine ⟨?_, ?_, ?_⟩
  · rw [h1, scaleRGB_one_eval]
  · rw [h2, scaleRGB_one_eval]
  · rw [h2, scaleRGB_one_eval, scaleColor_threshold_eval]
    decide

/-- C4 (amended): immediately after the release the channel is
unchanged at the full note colour, and it stays at the full note colour
at *every* later fade tick while the pedal remains down — the early
sustain-hold return in `note_off` means `released_time` is never set,
so the fade toward `sustain_fade_threshold` never starts. -/
theorem fade_sustain_hold_amended (t : ℚ) :
    fadeScenarioReleased.pixels 104 = (0, 0, 255) ∧
    (ledUpdateFade t fadeScenarioReleased).pixels 104 = (0, 0, 255) ∧
    (ledUpdateFade t fadeScenarioReleased).note_states =
      [(60, ⟨100, 0, none, 1⟩)] := by
  have h1 : fadeScenarioReleased.pixels 104 = scaleRGB (0, 0, 255) 1 := rfl
  have h2 : (ledUpdateFade t fadeScenarioReleased).pixels 104 =
      scaleRGB (0, 0, 255) 1 := rfl
  refine ⟨?_, ?_, by rfl⟩
  · rw [h1, scaleRGB_one_eval]
  · rw [h2, scaleRGB_one_eval]

/-!  ## Claim C1: NoteOff handling in the aggregation store  -/

/-- NoteOn 60 at velocity 100 arriving at t = 10 s (hour 12), pedal up. -/
def c1NoteOnState : TrackerState :=
  processMidiMessage [0x90, 60, 100] 10 12 initialState

/-- The matching NoteOff at t = 11 s, still pedal up. -/
def c1NoteOffState : TrackerState :=
  processMidiMessage [0x80, 60, 0] 11 12 c1NoteOnState

/-- Pedal pressed at t = 9 s. -/
def c1PedalState : TrackerState :=
  processMidiMessage [0xB0, 64, 127] 9 12 initialState

/-- NoteOn 60 at t = 10 s with the pedal held. -/
def c1PedalOnState : TrackerState :=
  processMidiMessage [0x90, 60, 100] 10 12 c1PedalState

/-- NoteOff 60 at t = 11 s with the pedal still held. -/
def c1PedalOffState : TrackerState :=
  processMidiMessage [0x80, 60, 0] 11 12 c1PedalOnState

/-- C1 (code bug): with the pedal up, the NoteOff branch removes the
NoteState in the chord-tracking cleanup *before* the duration block
(`if note in self.active_notes`), so a plain NoteOn/NoteOff pair adds
no duration anywhere and enqueues no duration row — the NoteState is
simply destroyed.  With the pedal held, the note is added to the
sustained set and the duration (1000 ms here) *is* accounted, but the
NoteState is nevertheless destroyed immediately, contrary to the
claimed "NOT immediately destroyed". -/
theorem noteoff_duration_accounting_bug :
    initialState.pedal_pressed = false ∧
    (c1NoteOnState.active_notes 60).isSome = true ∧
    c1NoteOffState.active_notes 60 = none ∧
    c1NoteOffState.daily_stats.total_duration_ms = 0 ∧
    c1NoteOffState.per_note_durations 60 = 0 ∧
    c1NoteOffState.db_queue = c1NoteOnState.db_queue ∧
    c1PedalOffState.sustained_notes 60 = true ∧
    c1PedalOffState.active_notes 60 = none ∧
    c1PedalOffState.daily_stats.total_duration_ms = 1000 := by
  refine ⟨rfl, rfl, rfl, by rfl, by rfl, by rfl, by rfl, by rfl, ?_⟩
  simp +decide [c1PedalOffState, c1PedalOnState, c1PedalState,
    processMidiMessage, sessionTouch, ensureHourStart, classifyMessage,
    classifyLong, applyByteCounters, hourlyUpdate, hourlyGet,
    calculateNoteEnergy, initialState, zeroCounters, defaultBucket]
  norm_num

/-!  ## Claim C2: the daily flush delta  -/

/-- A state whose daily totals differ from the snapshot only in
`other_bytes` (e.g. after a lone control-change message): the daily
write gate (`notes > 0 or session_seconds > 0`) never opens. -/
def staleOtherBytesState : TrackerState :=
  { initialState with daily_stats := { zeroCounters with other_bytes := 5 } }

/-- C2 counterexample: if the first flush's delta fails the write gate,
the snapshot is not advanced, and the *second* flush recomputes the
same nonzero delta (`other_bytes = 5` here) — the second daily delta is
not all-zero as claimed (it is merely never written). -/
theorem flush_twice_counterexample :
    (dailyDelta 200 (saveAggregatedData 100 staleOtherBytesState).1).other_bytes = 5 ∧
    dailyDelta 200 (saveAggregatedData 100 staleOtherBytesState).1 ≠ zeroCounters := by
  have h : (dailyDelta 200 (saveAggregatedData 100 staleOtherBytesState).1).other_bytes
      = 5 := by
    simp +decide [dailyDelta, saveAggregatedData, getCurrentSessionTime,
      hourlyFlushWrites, foldBucket, staleOtherBytesState, initialState,
      zeroCounters]
  refine ⟨h, fun hcontra => ?_⟩
  rw [hcontra] at h
  norm_num [zeroCounters] at h

/-- C2 (amended): when the first flush's delta passes the write gate
(`notes > 0 or session_seconds > 0`), the snapshot is set to the
current daily totals, so a second flush with no new events and no
session-time accrual computes an all-zero daily delta. -/
theorem flush_twice_delta_zero (t1 t2 : ℚ) (s : TrackerState)
    (hgate : 0 < (dailyDelta t1 s).total_notes ∨
      0 < (dailyDelta t1 s).session_time_seconds)
    (hsess : getCurrentSessionTime t2 (saveAggregatedData t1 s).1 =
      getCurrentSessionTime t1 s) :
    dailyDelta t2 (saveAggregatedData t1 s).1 = zeroCounters := by
  have h1 : (saveAggregatedData t1 s).1 =
      { s with
        last_saved_daily_stats :=
          { s.daily_stats with
            session_time_seconds := getCurrentSessionTime t1 s }
        hourly_stats := [] } := by
    simp only [saveAggregatedData]
    rw [if_pos hgate]
  rw [h1] at hsess
  rw [h1]
  simp [dailyDelta, zeroCounters, hsess]

/-- A state in which the gate opens: two unsaved notes. -/
def unsavedNotesState : TrackerState :=
  { initialState with daily_stats := { zeroCounters with total_notes := 2 } }

/-- Witness for C2 at a concrete state. -/
theorem flush_twice_delta_zero_witness :
    dailyDelta 200 (saveAggregatedData 100 unsavedNotesState).1 = zeroCounters := by
  refine flush_twice_delta_zero 100 200 unsavedNotesState (Or.inl ?_) ?_
  · norm_num [dailyDelta, unsavedNotesState, initialState, zeroCounters,
      getCurrentSessionTime]
  · simp [getCurrentSessionTime, saveAggregatedData, dailyDelta,
      unsavedNotesState, initialState, zeroCounters, hourlyFlushWrites,
      foldBucket]

/-!  ## Claim C3: hourly buckets on flush  -/

/-- A state with one hourly bucket that is non-empty only in
`pedal_presses`. -/
def pedalOnlyBucketState : TrackerState :=
  { initialState with hourly_stats :=
      [(14, ⟨{ zeroCounters with pedal_presses := 1 }, none⟩)] }

/-- C3 counterexample: a bucket with a pedal press but zero notes is
non-empty, yet the flush enqueues *no* write at all and still clears
the bucket — the `total_notes > 0` gate drops it. -/
theorem hourly_flush_counterexample :
    (0 : ℚ) < (hourlyGet pedalOnlyBucketState.hourly_stats 14).counters.pedal_presses ∧
    (saveAggregatedData 0 pedalOnlyBucketState).2 = [] ∧
    (saveAggregatedData 0 pedalOnlyBucketState).1.hourly_stats = [] := by
  refine ⟨?_, ?_, rfl⟩
  · norm_num [hourlyGet, pedalOnlyBucketState, initialState, zeroCounters]
  · simp +decide [saveAggregatedData, dailyDelta, getCurrentSessionTime,
      hourlyFlushWrites, foldBucket, pedalOnlyBucketState, initialState,
      zeroCounters]

/-- C3 (amended): one flush enqueues a full hourly upsert exactly for
the buckets whose `total_notes` is positive (with the session-start
fold applied), and then clears the whole hourly map — buckets that are
non-empty only in other counters are cleared without a write. -/
theorem hourly_flush_spec (now : ℚ) (s : TrackerState) :
    (∀ h b, (h, b) ∈ s.hourly_stats → 0 < b.counters.total_notes →
        DbWrite.hourlyUpsert h (foldBucket now b) ∈ (saveAggregatedData now s).2) ∧
    (∀ h c, DbWrite.hourlyUpsert h c ∈ (saveAggregatedData now s).2 →
        ∃ b, (h, b) ∈ s.hourly_stats ∧ 0 < b.counters.total_notes ∧
          c = foldBucket now b) ∧
    (saveAggregatedData now s).1.hourly_stats = [] := by
  have hw : (saveAggregatedData now s).2 =
      (if 0 < (dailyDelta now s).total_notes ∨
          0 < (dailyDelta now s).session_time_seconds
        then [DbWrite.dailyUpsert (dailyDelta now s)] else []) ++
      hourlyFlushWrites now s.hourly_stats := by
    simp only [saveAggregatedData]
    split <;> rfl
  refine ⟨?_, ?_, rfl⟩
  · intro h b hmem hpos
    rw [hw]
    refine List.mem_append_right _ ?_
    unfold hourlyFlushWrites
    exact List.mem_filterMap.mpr ⟨(h, b), hmem, by rw [if_pos hpos]⟩
  · intro h c hc
    rw [hw] at hc
    rcases List.mem_append.mp hc with hc | hc
    · split at hc <;> simp at hc
    · unfold hourlyFlushWrites at hc
      obtain ⟨⟨h', b⟩, hmem, hfb⟩ := List.mem_filterMap.mp hc
      by_cases hpos : 0 < b.counters.total_notes
      · rw [if_pos hpos] at hfb
        simp only [Option.some.injEq, DbWrite.hourlyUpsert.injEq] at hfb
        obtain ⟨he1, he2⟩ := hfb
        subst he1
        exact ⟨b, hmem, hpos, he2.symm⟩
      · rw [if_neg hpos] at hfb
        simp at hfb

/-- A state with one hourly bucket holding one note. -/
def singleNoteBucketState : TrackerState :=
  { initialState with hourly_stats :=
      [(3, ⟨{ zeroCounters with total_notes := 1 }, none⟩)] }

/-- Witness for C3: the single bucket with a note really is flushed. -/
theorem hourly_flush_spec_witness :
    DbWrite.hourlyUpsert 3
        (foldBucket 0 ⟨{ zeroCounters with total_notes := 1 }, none⟩) ∈
      (saveAggregatedData 0 singleNoteBucketState).2 :=
  (hourly_flush_spec 0 singleNoteBucketState).1 3 _
    (by simp [singleNoteBucketState, initialState])
    (by norm_num [zeroCounters])

/-!  ## Claim C5: one- and two-byte messages  -/

/-- The two-byte prefix of a NoteOn status message. -/
def truncatedNoteOnState : TrackerState :=
  processMidiMessage [0x90, 60] 0 12 initialState

/-- C5 counterexample: the 2-byte message `90 3C` is counted as a note
event (`0x80 <= status <= 0x9F`), so its 2 bytes go to `note_bytes` and
not to `other_bytes`, contrary to the claim that every 1- or 2-byte
message adds to `other_bytes` and never to `note_bytes`. -/
theorem short_message_counterexample :
    truncatedNoteOnState.daily_stats.note_bytes = 2 ∧
    truncatedNoteOnState.daily_stats.other_bytes = 0 := by
  constructor <;>
    simp +decide [truncatedNoteOnState, processMidiMessage, sessionTouch,
      ensureHourStart, classifyMessage, applyByteCounters, hourlyUpdate,
      hourlyGet, initialState, zeroCounters, defaultBucket]

/-- C5 (amended): every 1-byte message, and every 2-byte message whose
status byte is outside `0x80..0x9F`, adds its length to the
`other_bytes` counters (daily, current hour, session) and leaves
`note_bytes` unchanged; a 2-byte message with a status byte in
`0x80..0x9F` is instead counted as a note event, adding its length to
the `note_bytes` counters.  In all three cases nothing raises and no
note, pedal, or duration state is mutated (the embedding is a total
function, and the active/sustained sets, the pedal flag, the duration
counters and the queue are untouched). -/
theorem short_message_amended (s : TrackerState) (now : ℚ) (hour : ℕ) :
    (∀ b : ℕ,
      (processMidiMessage [b] now hour s).daily_stats.other_bytes =
        s.daily_stats.other_bytes + 1 ∧
      (processMidiMessage [b] now hour s).daily_stats.note_bytes =
        s.daily_stats.note_bytes ∧
      (hourlyGet (processMidiMessage [b] now hour s).hourly_stats hour).counters.other_bytes =
        (hourlyGet s.hourly_stats hour).counters.other_bytes + 1 ∧
      (processMidiMessage [b] now hour s).active_notes = s.active_notes ∧
      (processMidiMessage [b] now hour s).sustained_notes = s.sustained_notes ∧
      (processMidiMessage [b] now hour s).pedal_pressed = s.pedal_pressed ∧
      (processMidiMessage [b] now hour s).per_note_durations = s.per_note_durations ∧
      (processMidiMessage [b] now hour s).daily_stats.total_duration_ms =
        s.daily_stats.total_duration_ms ∧
      (processMidiMessage [b] now hour s).daily_stats.pedal_presses =
        s.daily_stats.pedal_presses ∧
      (processMidiMessage [b] now hour s).db_queue = s.db_queue) ∧
    (∀ b0 b1 : ℕ, ¬(0x80 ≤ b0 ∧ b0 ≤ 0x9F) →
      (processMidiMessage [b0, b1] now hour s).daily_stats.other_bytes =
        s.daily_stats.other_bytes + 2 ∧
      (processMidiMessage [b0, b1] now hour s).daily_stats.note_bytes =
        s.daily_stats.note_bytes ∧
      (hourlyGet (processMidiMessage [b0, b1] now hour s).hourly_stats hour).counters.other_bytes =
        (hourlyGet s.hourly_stats hour).counters.other_bytes + 2 ∧
      (processMidiMessage [b0, b1] now hour s).active_notes = s.active_notes ∧
      (processMidiMessage [b0, b1] now hour s).pedal_pressed = s.pedal_pressed ∧
      (processMidiMessage [b0, b1] now hour s).per_note_durations = s.per_note_durations ∧
      (processMidiMessage [b0, b1] now hour s).db_queue = s.db_queue) ∧
    (∀ b0 b1 : ℕ, 0x80 ≤ b0 ∧ b0 ≤ 0x9F →
      (processMidiMessage [b0, b1] now hour s).daily_stats.note_bytes =
        s.daily_stats.note_bytes + 2 ∧
      (processMidiMessage [b0, b1] now hour s).daily_stats.other_bytes =
        s.daily_stats.other_bytes ∧
      (hourlyGet (processMidiMessage [b0, b1] now hour s).hourly_stats hour).counters.note_bytes =
        (hourlyGet s.hourly_stats hour).counters.note_bytes + 2 ∧
      (processMidiMessage [b0, b1] now hour s).active_notes = s.active_notes ∧
      (processMidiMessage [b0, b1] now hour s).pedal_pressed = s.pedal_pressed ∧
      (processMidiMessage [b0, b1] now hour s).per_note_durations = s.per_note_durations ∧
      (processMidiMessage [b0, b1] now hour s).db_queue = s.db_queue) := by
  refine ⟨fun b => ?_, fun b0 b1 hb => ?_, fun b0 b1 hb => ?_⟩
  · refine ⟨?_, ?_, ?_, ?_, ?_, ?_, ?_, ?_, ?_, ?_⟩ <;>
      simp [processMidiMessage, classifyMessage,
        applyByteCounters_false_hourly_other, ensureHourStart_counters]
  · have hd : decide (0x80 ≤ b0 ∧ b0 ≤ 0x9F) = false := by
      simp [hb]
    refine ⟨?_, ?_, ?_, ?_, ?_, ?_, ?_⟩ <;>
      simp [processMidiMessage, classifyMessage, hd,
        applyByteCounters_false_hourly_other, ensureHourStart_counters]
  · have hd : decide (0x80 ≤ b0 ∧ b0 ≤ 0x9F) = true := by
      simp [hb.1, hb.2]
    refine ⟨?_, ?_, ?_, ?_, ?_, ?_, ?_⟩ <;>
      simp [processMidiMessage, classifyMessage, hd,
        applyByteCounters_true_hourly_note, ensureHourStart_counters]

/-- Witness for C5 at concrete inputs. -/
theorem short_message_amended_witness :
    (processMidiMessage [0xFE] 0 12 initialState).daily_stats.other_bytes =
      initialState.daily_stats.other_bytes + 1 ∧
    (processMidiMessage [0xF8, 0] 0 12 initialState).daily_stats.other_bytes =
      initialState.daily_stats.other_bytes + 2 ∧
    (processMidiMessage [0x90, 60] 0 12 initialState).daily_stats.note_bytes =
      initialState.daily_stats.note_bytes + 2 :=
  ⟨((short_message_amended initialState 0 12).1 0xFE).1,
   ((short_message_amended initialState 0 12).2.1 0xF8 0 (by norm_num)).1,
   ((short_message_amended initialState 0 12).2.2 0x90 60 (by norm_num)).1⟩

/-!  ## Claim C6: edge-triggered pedal counting  -/

/-- The Sustain-pressed control-change message (controller 64, value
127). -/
def sustainPressedMsg : List ℕ := [0xB0, 64, 127]

/-- The pedal `note_distribution` row with sentinel id `-1`. -/
def pedalOp : DistOp := ⟨-1, 1, 0, 0, 3, 0⟩

/-- Process one Sustain-pressed message per timestamp in the list. -/
def processPressRun (ts : List ℚ) (hour : ℕ) (s : TrackerState) : TrackerState :=
  ts.foldl (fun acc t => processMidiMessage sustainPressedMsg t hour acc) s

theorem press_pedal_up (t : ℚ) (hour : ℕ) (s : TrackerState)
    (hp : s.pedal_pressed = false) :
    (processMidiMessage sustainPressedMsg t hour s).pedal_pressed = true ∧
    (processMidiMessage sustainPressedMsg t hour s).daily_stats.pedal_presses =
      s.daily_stats.pedal_presses + 1 ∧
    (processMidiMessage sustainPressedMsg t hour s).db_queue =
      s.db_queue ++ [pedalOp] := by
  refine ⟨?_, ?_, ?_⟩ <;>
    simp +decide [sustainPressedMsg, pedalOp, processMidiMessage,
      classifyMessage, classifyLong, hp]

theorem press_pedal_down (t : ℚ) (hour : ℕ) (s : TrackerState)
    (hp : s.pedal_pressed = true) :
    (processMidiMessage sustainPressedMsg t hour s).pedal_pressed = true ∧
    (processMidiMessage sustainPressedMsg t hour s).daily_stats.pedal_presses =
      s.daily_stats.pedal_presses ∧
    (processMidiMessage sustainPressedMsg t hour s).db_queue = s.db_queue := by
  refine ⟨?_, ?_, ?_⟩ <;>
    simp +decide [sustainPressedMsg, processMidiMessage,
      classifyMessage, classifyLong, hp]

theorem run_pedal_down (ts : List ℚ) (hour : ℕ) (s : TrackerState)
    (hp : s.pedal_pressed = true) :
    (processPressRun ts hour s).pedal_pressed = true ∧
    (processPressRun ts hour s).daily_stats.pedal_presses =
      s.daily_stats.pedal_presses ∧
    (processPressRun ts hour s).db_queue = s.db_queue := by
  induction ts generalizing s with
  | nil => exact ⟨hp, rfl, rfl⟩
  | cons t rest ih =>
      have h1 := press_pedal_down t hour s hp
      have h2 := ih (processMidiMessage sustainPressedMsg t hour s) h1.1
      unfold processPressRun at h2 ⊢
      simp only [List.foldl] at h2 ⊢
      exact ⟨h2.1, h2.2.1.trans h1.2.1, h2.2.2.trans h1.2.2⟩

/-- C6: starting from pedal-up, a run of ten consecutive
Sustain-pressed messages (controller 64, value 127) with no intervening
release increments `pedal_presses` by exactly 1 and appends exactly one
pedal distribution row, under sentinel id `-1` (rising-edge counting). -/
theorem ten_presses_single_count (ts : List ℚ) (hour : ℕ) (s : TrackerState)
    (hlen : ts.length = 10) (hp : s.pedal_pressed = false) :
    (processPressRun ts hour s).daily_stats.pedal_presses =
      s.daily_stats.pedal_presses + 1 ∧
    (processPressRun ts hour s).db_queue = s.db_queue ++ [pedalOp] := by
  cases ts with
  | nil => simp at hlen
  | cons t rest =>
      have h1 := press_pedal_up t hour s hp
      have h2 := run_pedal_down rest hour
        (processMidiMessage sustainPressedMsg t hour s) h1.1
      unfold processPressRun at h2 ⊢
      simp only [List.foldl] at h2 ⊢
      exact ⟨h2.2.1.trans h1.2.1, h2.2.2.trans h1.2.2⟩

/-- Witness for C6: ten concrete timestamps from the fresh state. -/
theorem ten_presses_single_count_witness :
    (processPressRun [1, 2, 3, 4, 5, 6, 7, 8, 9, 10] 12 initialState).daily_stats.pedal_presses =
      initialState.daily_stats.pedal_presses + 1 ∧
    (processPressRun [1, 2, 3, 4, 5, 6, 7, 8, 9, 10] 12 initialState).db_queue =
      initialState.db_queue ++ [pedalOp] :=
  ten_presses_single_count [1, 2, 3, 4, 5, 6, 7, 8, 9, 10] 12 initialState
    (by rfl) (by rfl)

/-!  ## Claim C7: session pause and freezing  -/

theorem classifyLong_last_activity (d0 d1 d2 bc : ℕ) (now : ℚ) (hour : ℕ)
    (s : TrackerState) :
    (classifyLong d0 d1 d2 bc now hour s).1.last_activity_time =
      s.last_activity_time := by
  unfold classifyLong
  dsimp only
  repeat' split
  all_goals rfl

theorem classifyLong_is_active (d0 d1 d2 bc : ℕ) (now : ℚ) (hour : ℕ)
    (s : TrackerState) :
    (classifyLong d0 d1 d2 bc now hour s).1.session_is_active =
      s.session_is_active := by
  unfold classifyLong
  dsimp only
  repeat' split
  all_goals rfl

theorem classifyLong_timer_start (d0 d1 d2 bc : ℕ) (now : ℚ) (hour : ℕ)
    (s : TrackerState) :
    (classifyLong d0 d1 d2 bc now hour s).1.session_timer_start =
      s.session_timer_start := by
  unfold classifyLong
  dsimp only
  repeat' split
  all_goals rfl

theorem classifyLong_timer_total (d0 d1 d2 bc : ℕ) (now : ℚ) (hour : ℕ)
    (s : TrackerState) :
    (classifyLong d0 d1 d2 bc now hour s).1.session_timer_total =
      s.session_timer_total := by
  unfold classifyLong
  dsimp only
  repeat' split
  all_goals rfl

theorem classifyLong_threshold (d0 d1 d2 bc : ℕ) (now : ℚ) (hour : ℕ)
    (s : TrackerState) :
    (classifyLong d0 d1 d2 bc now hour s).1.session_pause_threshold =
      s.session_pause_threshold := by
  unfold classifyLong
  dsimp only
  repeat' split
  all_goals rfl

@[simp] theorem classifyMessage_last_activity (m : List ℕ) (now : ℚ) (hour : ℕ)
    (s : TrackerState) :
    (classifyMessage m now hour s).1.last_activity_time =
      s.last_activity_time := by
  rcases m with _ | ⟨d0, _ | ⟨d1, _ | ⟨d2, rest⟩⟩⟩ <;>
    simp [classifyMessage, classifyLong_last_activity]

@[simp] theorem classifyMessage_is_active (m : List ℕ) (now : ℚ) (hour : ℕ)
    (s : TrackerState) :
    (classifyMessage m now hour s).1.session_is_active =
      s.session_is_active := by
  rcases m with _ | ⟨d0, _ | ⟨d1, _ | ⟨d2, rest⟩⟩⟩ <;>
    simp [classifyMessage, classifyLong_is_active]

@[simp] theorem classifyMessage_timer_start (m : List ℕ) (now : ℚ) (hour : ℕ)
    (s : TrackerState) :
    (classifyMessage m now hour s).1.session_timer_start =
      s.session_timer_start := by
  rcases m with _ | ⟨d0, _ | ⟨d1, _ | ⟨d2, rest⟩⟩⟩ <;>
    simp [classifyMessage, classifyLong_timer_start]

@[simp] theorem classifyMessage_timer_total (m : List ℕ) (now : ℚ) (hour : ℕ)
    (s : TrackerState) :
    (classifyMessage m now hour s).1.session_timer_total =
      s.session_timer_total := by
  rcases m with _ | ⟨d0, _ | ⟨d1, _ | ⟨d2, rest⟩⟩⟩ <;>
    simp [classifyMessage, classifyLong_timer_total]

@[simp] theorem classifyMessage_threshold (m : List ℕ) (now : ℚ) (hour : ℕ)
    (s : TrackerState) :
    (classifyMessage m now hour s).1.session_pause_threshold =
      s.session_pause_threshold := by
  rcases m with _ | ⟨d0, _ | ⟨d1, _ | ⟨d2, rest⟩⟩⟩ <;>
    simp [classifyMessage, classifyLong_threshold]

theorem process_last_activity (m : List ℕ) (now : ℚ) (hour : ℕ)
    (s : TrackerState) :
    (processMidiMessage m now hour s).last_activity_time = some now := by
  cases m with
  | nil => simp [processMidiMessage]
  | cons d rest => simp [processMidiMessage]

theorem process_is_active (m : List ℕ) (now : ℚ) (hour : ℕ)
    (s : TrackerState) :
    (processMidiMessage m now hour s).session_is_active = true := by
  cases m with
  | nil => simp [processMidiMessage]
  | cons d rest => simp [processMidiMessage]

theorem process_timer_total (m : List ℕ) (now : ℚ) (hour : ℕ)
    (s : TrackerState) :
    (processMidiMessage m now hour s).session_timer_total =
      s.session_timer_total := by
  cases m with
  | nil => simp [processMidiMessage]
  | cons d rest => simp [processMidiMessage]

theorem process_threshold (m : List ℕ) (now : ℚ) (hour : ℕ)
    (s : TrackerState) :
    (processMidiMessage m now hour s).session_pause_threshold =
      s.session_pause_threshold := by
  cases m with
  | nil => simp [processMidiMessage]
  | cons d rest => simp [processMidiMessage]

theorem process_timer_start_idle (m : List ℕ) (now : ℚ) (hour : ℕ)
    (s : TrackerState) (h : s.session_is_active = false) :
    (processMidiMessage m now hour s).session_timer_start = some now := by
  cases m with
  | nil =>
      simp [processMidiMessage, sessionTouch_start_of_idle now s h]
  | cons d rest =>
      simp [processMidiMessage, sessionTouch_start_of_idle now s h]

/-- A tick pauses the session: when the last activity is a nonzero
time, the session is active, and the gap exceeds the threshold, the
timer folds `last_activity - timer_start` (not the idle gap) into the
total and goes idle. -/
theorem updateSessionTimer_pause (now : ℚ) (s : TrackerState) (la st : ℚ)
    (hla : s.last_activity_time = some la) (hla0 : la ≠ 0)
    (hact : s.session_is_active = true)
    (hst : s.session_timer_start = some st) (hst0 : st ≠ 0)
    (hgap : s.session_pause_threshold < now - la) :
    updateSessionTimer now s = { s with
      session_timer_total := s.session_timer_total + (la - st),
      session_is_active := false,
      session_timer_start := none } := by
  unfold updateSessionTimer
  rw [hla, hst]
  simp [hla0, hst0, hact, hgap]

/-- A tick while idle does nothing. -/
theorem updateSessionTimer_idle (now : ℚ) (s : TrackerState)
    (hact : s.session_is_active = false) :
    updateSessionTimer now s = s := by
  unfold updateSessionTimer
  cases hla : s.last_activity_time with
  | none => rfl
  | some la =>
      by_cases h0 : la = 0
      · simp [h0]
      · simp [h0, hact]

theorem getCurrentSessionTime_idle (now : ℚ) (s : TrackerState)
    (hact : s.session_is_active = false) :
    getCurrentSessionTime now s = s.session_timer_total := by
  unfold getCurrentSessionTime
  simp [hact]

/-- C7: with `pause_threshold = 40 s`, one event at `t0 > 0` and no
further events, a tick at `t0 + 41` makes the session inactive, folds
`last_event_time - active_since = t0 - t0 = 0` (not the idle gap) into
the total, and `current_session_seconds` is frozen at that
elapsed-at-last-event value (0) at every later query; further ticks
change nothing. -/
theorem session_pause_freeze (msg : List ℕ) (t0 : ℚ)
    (hmsg : msg ≠ []) (ht0 : 0 < t0) :
    (updateSessionTimer (t0 + 41)
        (processMidiMessage msg t0 12 initialState)).session_is_active = false ∧
    (updateSessionTimer (t0 + 41)
        (processMidiMessage msg t0 12 initialState)).session_timer_total = 0 ∧
    (∀ t : ℚ, getCurrentSessionTime t
        (updateSessionTimer (t0 + 41) (processMidiMessage msg t0 12 initialState)) = 0) ∧
    (∀ t : ℚ, updateSessionTimer t
        (updateSessionTimer (t0 + 41) (processMidiMessage msg t0 12 initialState)) =
      updateSessionTimer (t0 + 41) (processMidiMessage msg t0 12 initialState)) := by
  have hinit : initialState.session_is_active = false := rfl
  have hth : (processMidiMessage msg t0 12 initialState).session_pause_threshold
      = 40 := by
    rw [process_threshold]
    rfl
  have htot : (processMidiMessage msg t0 12 initialState).session_timer_total
      = 0 := by
    rw [process_timer_total]
    rfl
  have hpause := updateSessionTimer_pause (t0 + 41)
    (processMidiMessage msg t0 12 initialState) t0 t0
    (process_last_activity msg t0 12 initialState) (ne_of_gt ht0)
    (process_is_active msg t0 12 initialState)
    (process_timer_start_idle msg t0 12 initialState hinit) (ne_of_gt ht0)
    (by rw [hth]; linarith)
  rw [hpause]
  refine ⟨rfl, by simp [htot], fun t => ?_, fun t => ?_⟩
  · rw [getCurrentSessionTime_idle _ _ rfl]
    simp [htot]
  · rw [updateSessionTimer_idle _ _ rfl]

/-- Witness for C7 with the event at t = 100 s and the tick at 141 s. -/
theorem session_pause_freeze_witness :
    (updateSessionTimer 141
        (processMidiMessage [0x90, 60, 100] 100 12 initialState)).session_is_active = false ∧
    getCurrentSessionTime 500
        (updateSessionTimer 141 (processMidiMessage [0x90, 60, 100] 100 12 initialState)) = 0 := by
  have h := session_pause_freeze [0x90, 60, 100] 100 (by simp) (by norm_num)
  have h141 : (100 : ℚ) + 41 = 141 := by norm_num
  rw [h141] at h
  exact ⟨h.1, h.2.2.1 500⟩

end MidiTracker
